import Mathlib

/-!
Shallow embedding of `controllers/harvestermachine_controller.go` from
cluster-api-provider-harvester, together with proofs about the claims on
its specification.

External collaborators (kubernetes client, Harvester platform client,
`encoding/json`) are modelled explicitly: platform calls become fields of
an environment record holding each call's outcome, and `encoding/json`
unmarshalling into `map[string]interface\x7b\x7d` is modelled by a small
executable JSON parser over `List Char`.  Go runtime panics (nil type
assertions, out-of-range indexing, nil pointer dereference) are modelled
by a dedicated `crash` outcome, so that every embedded function is total.
-/

namespace Harvester

/-- Characters that are awkward to write literally under the delimiters
used by JSON. -/
def dquoteChar : Char := Char.ofNat 34

def bslashChar : Char := Char.ofNat 92

def slashChar : Char := Char.ofNat 47

def lbraceChar : Char := Char.ofNat 123

def rbraceChar : Char := Char.ofNat 125

def lbrackChar : Char := Char.ofNat 91

def rbrackChar : Char := Char.ofNat 93

/-- Generic JSON value, the model of Go `interface\x7b\x7d` as produced by
`json.Unmarshal`.  Objects are association lists in textual order. -/
inductive JVal where
  | jnull
  | jbool (b : Bool)
  | jnum (n : Int)
  | jstr (s : String)
  | jarr (xs : List JVal)
  | jobj (fields : List (String × JVal))
deriving Repr

def skipWs : List Char → List Char
  | c :: cs => if c = ' ' ∨ c = '\n' ∨ c = '\t' ∨ c = '\r' then skipWs cs else c :: cs
  | [] => []

/-- Parse the body of a JSON string after the opening quote.  Only the
escapes needed by the documents this controller handles are supported. -/
def parseStringBody : Nat → List Char → Except String (String × List Char)
  | 0, _ => .error "json: fuel exhausted"
  | _ + 1, [] => .error "json: unexpected end of string literal"
  | fuel + 1, c :: cs =>
    if c = dquoteChar then .ok ("", cs)
    else if c = bslashChar then
      match cs with
      | [] => .error "json: unexpected end of string literal"
      | e :: cs' =>
        if e = dquoteChar ∨ e = bslashChar ∨ e = slashChar then
          match parseStringBody fuel cs' with
          | .error msg => .error msg
          | .ok (s, rest) => .ok (String.mk (e :: s.data), rest)
        else .error "json: unsupported escape"
    else
      match parseStringBody fuel cs with
      | .error msg => .error msg
      | .ok (s, rest) => .ok (String.mk (c :: s.data), rest)

def expectChars : List Char → List Char → Option (List Char)
  | [], cs => some cs
  | _ :: _, [] => none
  | e :: es, c :: cs => if c = e then expectChars es cs else none

def takeDigits : List Char → List Char × List Char
  | [] => ([], [])
  | c :: cs =>
    if c.isDigit then
      let p := takeDigits cs
      (c :: p.1, p.2)
    else ([], c :: cs)

def digitsToNat (ds : List Char) : Nat :=
  ds.foldl (fun a c => a * 10 + (c.toNat - 48)) 0

mutual

/-- Parse one JSON value.  Models the grammar `encoding/json` accepts on
the inputs this controller produces (floats and exotic escapes are not
modelled; none of the embedded documents contain them). -/
def parseVal : Nat → List Char → Except String (JVal × List Char)
  | 0, _ => .error "json: fuel exhausted"
  | fuel + 1, cs =>
    match skipWs cs with
    | [] => .error "json: unexpected end of input"
    | c :: rest =>
      if c = dquoteChar then
        match parseStringBody fuel rest with
        | .error msg => .error msg
        | .ok (s, rest') => .ok (JVal.jstr s, rest')
      else if c = lbraceChar then parseObjRest fuel rest
      else if c = lbrackChar then parseArrRest fuel rest
      else if c = 't' then
        match expectChars ['r', 'u', 'e'] rest with
        | some rest' => .ok (JVal.jbool true, rest')
        | none => .error "json: invalid literal"
      else if c = 'f' then
        match expectChars ['a', 'l', 's', 'e'] rest with
        | some rest' => .ok (JVal.jbool false, rest')
        | none => .error "json: invalid literal"
      else if c = 'n' then
        match expectChars ['u', 'l', 'l'] rest with
        | some rest' => .ok (JVal.jnull, rest')
        | none => .error "json: invalid literal"
      else if c = '-' then
        match takeDigits rest with
        | ([], _) => .error "json: invalid number"
        | (ds, rest') => .ok (JVal.jnum (-(digitsToNat ds : Int)), rest')
      else if c.isDigit then
        match takeDigits (c :: rest) with
        | ([], _) => .error "json: invalid number"
        | (ds, rest') => .ok (JVal.jnum (digitsToNat ds : Int), rest')
      else .error "json: invalid character"

/-- Parse the remainder of a JSON object after the opening brace. -/
def parseObjRest : Nat → List Char → Except String (JVal × List Char)
  | 0, _ => .error "json: fuel exhausted"
  | fuel + 1, cs =>
    match skipWs cs with
    | [] => .error "json: unexpected end of object"
    | c :: rest =>
      if c = rbraceChar then .ok (JVal.jobj [], rest)
      else parseObjFields fuel (c :: rest) []

/-- Parse `"key": value` pairs separated by commas, then the closing
brace.  `acc` holds the fields parsed so far, in reverse. -/
def parseObjFields : Nat → List Char → List (String × JVal) →
    Except String (JVal × List Char)
  | 0, _, _ => .error "json: fuel exhausted"
  | fuel + 1, cs, acc =>
    match skipWs cs with
    | [] => .error "json: unexpected end of object"
    | c :: rest =>
      if c = dquoteChar then
        match parseStringBody fuel rest with
        | .error msg => .error msg
        | .ok (key, rest') =>
          match skipWs rest' with
          | ':' :: rest'' =>
            match parseVal fuel rest'' with
            | .error msg => .error msg
            | .ok (v, rest3) =>
              match skipWs rest3 with
              | ',' :: rest4 => parseObjFields fuel rest4 ((key, v) :: acc)
              | d :: rest4 =>
                if d = rbraceChar then .ok (JVal.jobj (((key, v) :: acc).reverse), rest4)
                else .error "json: invalid character in object"
              | [] => .error "json: unexpected end of object"
          | _ => .error "json: expected colon"
      else .error "json: expected object key"

/-- Parse the remainder of a JSON array after the opening bracket. -/
def parseArrRest : Nat → List Char → Except String (JVal × List Char)
  | 0, _ => .error "json: fuel exhausted"
  | fuel + 1, cs =>
    match skipWs cs with
    | [] => .error "json: unexpected end of array"
    | c :: rest =>
      if c = rbrackChar then .ok (JVal.jarr [], rest)
      else parseArrElems fuel (c :: rest) []

/-- Parse array elements separated by commas, then the closing bracket.
`acc` holds the elements parsed so far, in reverse. -/
def parseArrElems : Nat → List Char → List JVal → Except String (JVal × List Char)
  | 0, _, _ => .error "json: fuel exhausted"
  | fuel + 1, cs, acc =>
    match parseVal fuel cs with
    | .error msg => .error msg
    | .ok (v, rest) =>
      match skipWs rest with
      | ',' :: rest' => parseArrElems fuel rest' (v :: acc)
      | d :: rest' =>
        if d = rbrackChar then .ok (JVal.jarr ((v :: acc).reverse), rest')
        else .error "json: invalid character in array"
      | [] => .error "json: unexpected end of array"

end

/-- Model of `json.Unmarshal(data, &map[string]interface\x7b\x7d)`:
parses a full JSON document and requires the top-level value to be an
object, with nothing but whitespace after it. -/
def parseJsonObj (s : String) : Except String (List (String × JVal)) :=
  match parseVal (2 * s.data.length + 8) s.data with
  | .error msg => .error msg
  | .ok (v, rest) =>
    if skipWs rest = [] then
      match v with
      | JVal.jobj fields => .ok fields
      | _ => .error "json: cannot unmarshal value into map"
    else .error "json: invalid character after top-level value"

/-- `cloudInitListSections` from the source: the closed set of cloud-init
keys treated as list-valued by the merge. -/
def cloudInitListSections : List String :=
  ["package_update", "packages", "runcmd", "ssh_authorized_keys", "groups",
   "users", "write_files", "bootcmd"]

def alistLookup : List (String × JVal) → String → Option JVal
  | [], _ => none
  | (k', v) :: rest, k => if k' = k then some v else alistLookup rest k

def alistSet : List (String × JVal) → String → JVal → List (String × JVal)
  | [], k, v => [(k, v)]
  | (k', v') :: rest, k, v =>
    if k' = k then (k, v) :: rest else (k', v') :: alistSet rest k v

/-- Message of the Go runtime panic raised by the unguarded type assertion
`resCloudInitObj[k].([]interface\x7b\x7d)` when the accumulator entry is
absent (a nil `interface\x7b\x7d`) or not a list. -/
def interfaceConversionMsg : String :=
  "interface conversion: interface is nil, not []interface"

/-- One `for k, v := range cloudInitObj` pass of `mergeCloudInitData`.
The `.error` outcome models the runtime panic of the unguarded type
assertion on the accumulator entry, not a Go `error` value. -/
def mergeEntries (acc : List (String × JVal)) :
    List (String × JVal) → Except String (List (String × JVal))
  | [] => .ok acc
  | (k, v) :: rest =>
    if cloudInitListSections.contains k then
      match alistLookup acc k with
      | some (JVal.jarr xs) => mergeEntries (alistSet acc k (JVal.jarr (xs ++ [v]))) rest
      | _ => .error interfaceConversionMsg
    else mergeEntries acc rest

mutual

/-- Model of `json.Marshal` on the merged object (map keys are emitted in
sorted order by `encoding/json`; sorting is applied by the caller). -/
def marshalJVal : JVal → String
  | JVal.jnull => "null"
  | JVal.jbool b => if b then "true" else "false"
  | JVal.jnum n => toString n
  | JVal.jstr s => dquoteChar.toString ++ s ++ dquoteChar.toString
  | JVal.jarr xs => lbrackChar.toString ++ marshalElems xs ++ rbrackChar.toString
  | JVal.jobj fs => lbraceChar.toString ++ marshalFields fs ++ rbraceChar.toString

def marshalElems : List JVal → String
  | [] => ""
  | [x] => marshalJVal x
  | x :: y :: xs => marshalJVal x ++ "," ++ marshalElems (y :: xs)

def marshalFields : List (String × JVal) → String
  | [] => ""
  | [kv] => dquoteChar.toString ++ kv.1 ++ dquoteChar.toString ++ ":" ++ marshalJVal kv.2
  | kv :: kv' :: fs =>
    dquoteChar.toString ++ kv.1 ++ dquoteChar.toString ++ ":" ++ marshalJVal kv.2 ++ "," ++
      marshalFields (kv' :: fs)

end

def insertFieldSorted (kv : String × JVal) : List (String × JVal) → List (String × JVal)
  | [] => [kv]
  | kv' :: rest =>
    if kv.1 < kv'.1 then kv :: kv' :: rest else kv' :: insertFieldSorted kv rest

def sortFields : List (String × JVal) → List (String × JVal)
  | [] => []
  | kv :: rest => insertFieldSorted kv (sortFields rest)

/-- Outcome of `mergeCloudInitData`.  `ok` carries the serialized bytes
(the Go `[]byte` result), `err` the returned Go `error`, and `crash` a
runtime panic. -/
inductive MergeOut where
  | ok (result : String)
  | err (msg : String)
  | crash (msg : String)
deriving Repr, DecidableEq

/-- The fragment loop of `mergeCloudInitData`: unmarshal each fragment in
order, then fold its entries into the accumulator. -/
def mergeLoop (acc : List (String × JVal)) : List String → MergeOut
  | [] => MergeOut.ok ("#cloud-config\n" ++ marshalJVal (JVal.jobj (sortFields acc)))
  | frag :: rest =>
    match parseJsonObj frag with
    | .error e => MergeOut.err e
    | .ok fields =>
      match mergeEntries acc fields with
      | .error pm => MergeOut.crash pm
      | .ok acc' => mergeLoop acc' rest

/-- `mergeCloudInitData` from the source, as a total function over the
variadic fragment list. -/
def mergeCloudInitData (cloudInits : List String) : MergeOut :=
  mergeLoop [] cloudInits

/-! ## Data model of the controller -/

/-- `infrav1.Volume`: only the fields this controller reads.
`volumeSize` models the `*resource.Quantity` pointer. -/
structure Volume where
  imageName : String
  volumeSize : Option String
deriving Repr, DecidableEq

/-- `harvesterv1beta1.VirtualMachineImage`: identity plus display name. -/
structure VMImage where
  name : String
  ns : String
  displayName : String
deriving Repr, DecidableEq

/-- `harvesterv1beta1.KeyPair`: name plus `Spec.PublicKey`. -/
structure KeyPair where
  name : String
  publicKey : String
deriving Repr, DecidableEq

/-- One entry of `vmInstance.Status.Interfaces`. -/
structure NetworkInterface where
  ip : String
deriving Repr, DecidableEq

/-- `kubevirtv1.VirtualMachineInstance`: only its interface list is read. -/
structure VMInstance where
  interfaces : List NetworkInterface
deriving Repr, DecidableEq

/-- `clusterv1.MachineAddressType`; the controller only ever emits
`MachineExternalIP`. -/
inductive MachineAddressType where
  | externalIP
  | internalIP
  | hostName
deriving Repr, DecidableEq

/-- `clusterv1.MachineAddress`. -/
structure MachineAddress where
  addrType : MachineAddressType
  address : String
deriving Repr, DecidableEq

structure HarvesterMachineStatus where
  ready : Bool
  addresses : List MachineAddress
deriving Repr, DecidableEq

/-- The `HarvesterMachine` object as the reconciler reads and writes it. -/
structure HarvesterMachine where
  name : String
  ns : String
  targetNamespace : String
  finalizers : List String
  deletionTimestampIsZero : Bool
  volumes : List Volume
  sshKeyPair : String
  cpu : Nat
  memory : String
  status : HarvesterMachineStatus
deriving Repr, DecidableEq

/-- A `kubevirtv1.VirtualMachine` as observed through the lookup-by-name;
`running` models the `Spec.Running` pointer. -/
structure ObservedVM where
  name : String
  ns : String
  running : Option Bool
deriving Repr, DecidableEq

/-- The typed clientset's Get returns a non-nil empty object together with
a NotFound error, so `existingVM != nil` is always true downstream. -/
def emptyObservedVM : ObservedVM := { name := "", ns := "", running := none }

/-- Outcome of the VM lookup by name. -/
inductive GetVMOut where
  | ok (vm : ObservedVM)
  | notFound
  | err (e : String)
deriving Repr, DecidableEq

/-- A `v1.Secret`: name, namespace and string data. -/
structure CoreSecret where
  name : String
  ns : String
  data : List (String × String)
deriving Repr, DecidableEq

/-- Outcome of a platform Delete call. -/
inductive DeleteOut where
  | ok
  | notFound
  | err (e : String)
deriving Repr, DecidableEq

/-- The outcomes of every external call a reconcile pass can make, keyed
the way the source keys them (lists by namespace).  `randomID` models
`locutil.RandomID()`. -/
structure PlatformEnv where
  getVM : GetVMOut
  listVMIs : String → Except String (List VMInstance)
  listImages : String → Except String (List VMImage)
  getKeyPair : Except String KeyPair
  getDataSecret : Except String CoreSecret
  createCloudInitSecret : Except String Unit
  createVM : Except String Unit
  deleteCloudInitSecret : DeleteOut
  deleteVM : DeleteOut
  randomID : String

/-- The parts of the resolved `Scope` that drive control flow. -/
structure MachineScope where
  paused : Bool
  infraReady : Bool
  bootstrapDataSecretName : Option String
  hvMachine : HarvesterMachine

/-- Modelled from the spec: `infrav1.MachineFinalizer` is declared in the
api package, which is not among the given sources; the reconciler treats
it as an opaque token whose only relevant property is presence in the
finalizer list. -/
def machineFinalizer : String := "harvestermachine.infrastructure.cluster.x-k8s.io"

/-! ## Image resolution -/

/-- Model of Go `strings.Split(s, sep)` for a one-character separator. -/
def splitCharAux (sep : Char) : List Char → List Char → List String
  | [], acc => [String.mk acc.reverse]
  | c :: cs, acc =>
    if c = sep then String.mk acc.reverse :: splitCharAux sep cs []
    else splitCharAux sep cs (c :: acc)

def splitOnSep (sep : Char) (s : String) : List String :=
  splitCharAux sep s.data []

def malformedImageRefMsg : String :=
  "ImageName is HarvesterMachine is Malformed, expecting <NAMESPACE>/<NAME> format"

def imageNotFoundMsg : String :=
  "impossible to find referenced VM image from imageName field in HarvesterMachine"

inductive ImageOut where
  | ok (img : VMImage)
  | err (msg : String)
  | crash (msg : String)
deriving Repr, DecidableEq

/-- `getImageFromHarvesterMachine` from the source.  The unguarded
`imageVolumes[0]` access crashes on an empty list.  Both the empty image
list and the no-display-name-match paths return the same error text, as
in the source. -/
def getImageFromHarvesterMachine (imageVolumes : List Volume)
    (listImages : String → Except String (List VMImage)) : ImageOut :=
  match imageVolumes with
  | [] => ImageOut.crash "runtime error: index out of range"
  | iv :: _ =>
    match splitOnSep slashChar iv.imageName with
    | [nsPart, namePart] =>
      match listImages nsPart with
      | .error e => ImageOut.err e
      | .ok imgs =>
        if imgs.length = 0 then ImageOut.err imageNotFoundMsg
        else
          match imgs.find? (fun img => img.displayName == namePart) with
          | some img => ImageOut.ok img
          | none => ImageOut.err imageNotFoundMsg
    | _ => ImageOut.err malformedImageRefMsg

/-! ## Address extraction -/

def noInstancesMsg (vmName : String) : String :=
  "no VM instances found for VM " ++ vmName

/-- `getIPAddressesFromVMI` from the source: list all VM instances in the
VM's namespace, error when none exist, otherwise one external-IP entry
per interface per instance, in platform order. -/
def getIPAddressesFromVMI (listVMIs : String → Except String (List VMInstance))
    (existingVM : ObservedVM) : Except String (List MachineAddress) :=
  match listVMIs existingVM.ns with
  | .error e => .error e
  | .ok items =>
    if items.length = 0 then .error (noInstancesMsg existingVM.name)
    else
      .ok (items.flatMap (fun inst => inst.interfaces.map
        (fun nic => { addrType := MachineAddressType.externalIP, address := nic.ip })))

/-! ## PVC annotation synthesis -/

def hvAnnotationImageID : String := "harvesterhci.io/imageId"

def vmAnnotationPVC : String := "harvesterhci.io/volumeClaimTemplates"

def vmAnnotationNetworkIps : String := "networks.harvesterhci.io/ips"

def hvAnnotationDiskNames : String := "harvesterhci.io/diskNames"

def hvAnnotationSSH : String := "harvesterhci.io/sshNames"

/-- The storage-claim descriptor built by `buildPVCAnnotationFromImageID`. -/
structure PVCTemplate where
  name : String
  ns : String
  imageId : String
  accessModes : List String
  storageRequest : String
  volumeMode : String
  storageClassName : String
deriving Repr, DecidableEq

inductive PVCOut where
  | ok (pvc : PVCTemplate)
  | crash (msg : String)
deriving Repr, DecidableEq

/-- `buildPVCAnnotationFromImageID` from the source.  Dereferencing
`*imageVolume.VolumeSize` crashes when the pointer is nil; the
`json.Marshal` error branch is unreachable for this struct and marshal is
modelled as total. -/
def buildPVCAnnotFromImageID (imageVolume : Volume) (pvcName pvcNamespace : String)
    (vmImage : VMImage) : PVCOut :=
  match imageVolume.volumeSize with
  | none => PVCOut.crash "runtime error: invalid memory address or nil pointer dereference"
  | some size =>
    PVCOut.ok
      { name := pvcName, ns := pvcNamespace,
        imageId := vmImage.ns ++ "/" ++ vmImage.name,
        accessModes := ["ReadWriteMany"],
        storageRequest := size,
        volumeMode := "Block",
        storageClassName := "longhorn-" ++ vmImage.name }

/-- Model of `json.Marshal([]*v1.PersistentVolumeClaim\x7b...\x7d)` on the
descriptor above. -/
def marshalPVCPayload (p : PVCTemplate) : String :=
  marshalJVal (JVal.jarr [JVal.jobj
    [("metadata", JVal.jobj
       [("name", JVal.jstr p.name), ("namespace", JVal.jstr p.ns),
        ("annotations", JVal.jobj [(hvAnnotationImageID, JVal.jstr p.imageId)])]),
     ("spec", JVal.jobj
       [("accessModes", JVal.jarr (p.accessModes.map JVal.jstr)),
        ("resources", JVal.jobj [("requests", JVal.jobj
           [("storage", JVal.jstr p.storageRequest)])]),
        ("volumeMode", JVal.jstr p.volumeMode),
        ("storageClassName", JVal.jstr p.storageClassName)])]])

/-! ## VM template synthesis -/

/-- `cloudInitBase` backtick literal from `buildVMTemplate` (a YAML
document, handed as-is to the JSON-based merge). -/
def cloudInitBase : String :=
  "package_update: true\npackages:\n  - qemu-guest-agent\nruncmd:\n  - - systemctl\n    - enable\n    - --now\n    - qemu-guest-agent.service"

/-- `"[\"" + x + "\"]"` as the source builds disk/ssh name annotations. -/
def quoteSingleton (x : String) : String :=
  lbrackChar.toString ++ dquoteChar.toString ++ x ++ dquoteChar.toString ++ rbrackChar.toString

/-- One preferred pod-anti-affinity term. -/
structure WeightedAntiAffinityTerm where
  weight : Int
  topologyKey : String
  matchLabels : List (String × String)
deriving Repr, DecidableEq

/-- A template volume: exactly one of the two sources is set, as in
`kubevirtv1.VolumeSource`. -/
structure VMVolume where
  name : String
  pvcClaimName : Option String
  cloudInitSecretName : Option String
deriving Repr, DecidableEq

structure VMDisk where
  name : String
  bus : String
deriving Repr, DecidableEq

structure VMInterface where
  name : String
  model : String
deriving Repr, DecidableEq

structure VMInput where
  bus : String
  inputType : String
  name : String
deriving Repr, DecidableEq

/-- The `kubevirtv1.VirtualMachineInstanceTemplateSpec` the synthesis
assembles, with the fields the source sets. -/
structure VMTemplateSpec where
  annotations : List (String × String)
  labels : List (String × String)
  hostname : String
  networks : List (String × String)
  volumes : List VMVolume
  cpuCores : Nat
  cpuSockets : Nat
  cpuThreads : Nat
  inputs : List VMInput
  interfaces : List VMInterface
  disks : List VMDisk
  memoryRequest : String
  antiAffinity : List WeightedAntiAffinityTerm
deriving Repr, DecidableEq

/-- The whole `kubevirtv1.VirtualMachine` submitted to the create call. -/
structure VMDefRecord where
  name : String
  ns : String
  annotations : List (String × String)
  labels : List (String × String)
  running : Bool
  template : VMTemplateSpec
deriving Repr, DecidableEq

/-- Create calls issued to the platform during a pass (the submissions,
whether or not the platform accepted them). -/
structure PlatformEffects where
  secretCreateCalls : List CoreSecret
  vmCreateCalls : List VMDefRecord
deriving Repr, DecidableEq

def noEffects : PlatformEffects := { secretCreateCalls := [], vmCreateCalls := [] }

inductive CloudInitDataOut where
  | ok (userData : String)
  | err (msg : String)
  | crash (msg : String)
deriving Repr, DecidableEq

/-- `getCloudInitData` from the source: dereferences
`*Machine.Spec.Bootstrap.DataSecretName` (crash when nil), fetches the
bootstrap secret and requires its `value` key. -/
def getCloudInitData (bootstrapDataSecretName : Option String)
    (getDataSecret : Except String CoreSecret) : CloudInitDataOut :=
  match bootstrapDataSecretName with
  | none =>
    CloudInitDataOut.crash "runtime error: invalid memory address or nil pointer dereference"
  | some _ =>
    match getDataSecret with
    | .error e => CloudInitDataOut.err e
    | .ok s =>
      match s.data.lookup "value" with
      | none => CloudInitDataOut.err "no userData key found in secret"
      | some v => CloudInitDataOut.ok v

/-- Models `sshKey == nil || sshKey == (&harvesterv1beta1.KeyPair\x7b\x7d)`:
the typed clientset never returns a nil pointer, and the second
comparison is a pointer comparison against a fresh allocation, never
equal to the fetched object.  The guard is therefore constant false. -/
def emptyKeyPairGuard (_sshKey : KeyPair) : Bool := false

inductive TemplateOut where
  | ok (tmpl : VMTemplateSpec)
  | err (msg : String)
  | crash (msg : String)
deriving Repr, DecidableEq

/-- `buildVMTemplate` from the source.  The pre-create Get of the
cloud-init secret is only logged and does not change control flow, so it
is not modelled as a branch.  `resource.MustParse` on the memory quantity
is modelled as the verbatim quantity string (its panic on a malformed
quantity sits in the never-reached assembly and is outside every claim). -/
def buildVMTemplate (env : PlatformEnv) (s : MachineScope) (pvcName : String)
    (vmiLabels : List (String × String)) : TemplateOut × PlatformEffects :=
  match env.getKeyPair with
  | .error e =>
    (TemplateOut.err ("error during getting keypair from Harvester: " ++ e), noEffects)
  | .ok sshKey =>
    if emptyKeyPairGuard sshKey then (TemplateOut.err "no keypair could be defined", noEffects)
    else
      let cloudInitSSHSection := "\nssh_authorized_keys:\n  - " ++ sshKey.publicKey ++ "\n"
      match getCloudInitData s.bootstrapDataSecretName env.getDataSecret with
      | CloudInitDataOut.crash m => (TemplateOut.crash m, noEffects)
      | CloudInitDataOut.err e1 =>
        (TemplateOut.err ("error during getting cloud init user data from Harvester: " ++ e1),
         noEffects)
      | CloudInitDataOut.ok cloudInitUserData =>
        match mergeCloudInitData [cloudInitBase, cloudInitSSHSection, cloudInitUserData] with
        | MergeOut.crash m => (TemplateOut.crash m, noEffects)
        | MergeOut.err e =>
          (TemplateOut.err ("error during merging cloud init user data from Harvester: " ++ e),
           noEffects)
        | MergeOut.ok finalCloudInit =>
          let cloudInitSecret : CoreSecret :=
            { name := s.hvMachine.name ++ "-cloud-init",
              ns := s.hvMachine.targetNamespace,
              data := [("userData", finalCloudInit)] }
          let eff : PlatformEffects :=
            { secretCreateCalls := [cloudInitSecret], vmCreateCalls := [] }
          match env.createCloudInitSecret with
          | .error e => (TemplateOut.err ("unable to create cloud-init secret: " ++ e), eff)
          | .ok _ =>
            (TemplateOut.ok
              { annotations :=
                  [(hvAnnotationDiskNames, quoteSingleton pvcName),
                   (hvAnnotationSSH, quoteSingleton sshKey.name)],
                labels := vmiLabels,
                hostname := s.hvMachine.name,
                networks := [("nic-1", "vlan1")],
                volumes :=
                  [{ name := "disk-0", pvcClaimName := some pvcName,
                     cloudInitSecretName := none },
                   { name := "cloudinitdisk", pvcClaimName := none,
                     cloudInitSecretName := some (s.hvMachine.name ++ "-cloud-init") }],
                cpuCores := s.hvMachine.cpu,
                cpuSockets := s.hvMachine.cpu,
                cpuThreads := s.hvMachine.cpu,
                inputs := [{ bus := "usb", inputType := "tablet", name := "tablet" }],
                interfaces := [{ name := "nic-1", model := "virtio" }],
                disks := [{ name := "disk-0", bus := "virtio" },
                          { name := "cloudinitdisk", bus := "virtio" }],
                memoryRequest := s.hvMachine.memory,
                antiAffinity :=
                  [{ weight := 1, topologyKey := "kubernetes.io/hostname",
                     matchLabels := [("harvesterhci.io/vmNamePrefix", s.hvMachine.name)] }] },
             eff)

/-! ## VM creation -/

inductive CreateOut where
  | ok (vm : VMDefRecord)
  | err (msg : String)
  | crash (msg : String)
deriving Repr, DecidableEq

/-- `createVMFromHarvesterMachine` from the source.  `vmiLabels :=
vmLabels` in Go copies the map reference, so the vmName/vmNamePrefix
labels land in both label sets; both are modelled as the same list. -/
def createVMFromHarvesterMachine (env : PlatformEnv) (s : MachineScope) :
    CreateOut × PlatformEffects :=
  let vmName := s.hvMachine.name
  let vmLabels := [("harvesterhci.io/creator", "harvester"),
                   ("harvesterhci.io/vmName", vmName),
                   ("harvesterhci.io/vmNamePrefix", vmName)]
  let vmiLabels := vmLabels
  let pvcName := vmName ++ "-disk-0-" ++ env.randomID
  let imageVolumes := s.hvMachine.volumes.filter (fun v => v.imageName ≠ "")
  match getImageFromHarvesterMachine imageVolumes env.listImages with
  | ImageOut.crash m => (CreateOut.crash m, noEffects)
  | ImageOut.err e =>
    (CreateOut.err ("unable to find VM image reference in HarvesterMachine: " ++ e), noEffects)
  | ImageOut.ok vmImage =>
    match imageVolumes with
    | [] => (CreateOut.crash "runtime error: index out of range", noEffects)
    | iv :: _ =>
      match buildPVCAnnotFromImageID iv pvcName s.hvMachine.targetNamespace vmImage with
      | PVCOut.crash m => (CreateOut.crash m, noEffects)
      | PVCOut.ok pvcPayload =>
        match buildVMTemplate env s pvcName vmiLabels with
        | (TemplateOut.crash m, eff) => (CreateOut.crash m, eff)
        | (TemplateOut.err e, eff) =>
          (CreateOut.err ("unable to build VM definition: " ++ e), eff)
        | (TemplateOut.ok tmpl, eff) =>
          let newVM : VMDefRecord :=
            { name := vmName, ns := s.hvMachine.targetNamespace,
              annotations := [(vmAnnotationPVC, marshalPVCPayload pvcPayload),
                              (vmAnnotationNetworkIps, "[]")],
              labels := vmLabels, running := true, template := tmpl }
          let eff' := { eff with vmCreateCalls := eff.vmCreateCalls ++ [newVM] }
          match env.createVM with
          | .error e => (CreateOut.err e, eff')
          | .ok _ => (CreateOut.ok newVM, eff')

/-! ## Reconcile passes -/

structure CtrlResult where
  requeue : Bool
deriving Repr, DecidableEq

inductive ReconcileOut where
  | ret (res : CtrlResult) (err : Option String) (m : HarvesterMachine)
  | crash (msg : String)
deriving Repr, DecidableEq

/-- `controllerutil.AddFinalizer`: append if absent. -/
def addFinalizer (m : HarvesterMachine) : HarvesterMachine :=
  if m.finalizers.contains machineFinalizer then m
  else { m with finalizers := m.finalizers ++ [machineFinalizer] }

/-- The body of `ReconcileNormal` after the VM lookup: the
already-exists branch (observe, extract addresses, update status) or the
create branch.  A failure of the create path is only logged; the pass
still returns a nil error. -/
def reconcileVMState (env : PlatformEnv) (s : MachineScope)
    (existingVM : ObservedVM) : ReconcileOut :=
  let m := s.hvMachine
  if existingVM.name == m.name then
    match existingVM.running with
    | none =>
      ReconcileOut.crash "runtime error: invalid memory address or nil pointer dereference"
    | some running =>
      if running then
        match getIPAddressesFromVMI env.listVMIs existingVM with
        | .error e => ReconcileOut.ret { requeue := false } (some e) m
        | .ok ipAddresses =>
          let m' := { m with status :=
            { addresses := ipAddresses,
              ready := if ipAddresses.length > 0 then true else m.status.ready } }
          ReconcileOut.ret { requeue := false } none m'
      else ReconcileOut.ret { requeue := false } none m
  else
    match createVMFromHarvesterMachine env s with
    | (CreateOut.crash msg, _) => ReconcileOut.crash msg
    | _ => ReconcileOut.ret { requeue := false } none m

/-- `ReconcileNormal` from the source: precondition early returns, then
VM lookup, then observe-or-create. -/
def ReconcileNormal (env : PlatformEnv) (s : MachineScope) : ReconcileOut :=
  let m := s.hvMachine
  if s.paused then ReconcileOut.ret { requeue := false } none m
  else if !(m.finalizers.contains machineFinalizer) && m.deletionTimestampIsZero then
    ReconcileOut.ret { requeue := false } none (addFinalizer m)
  else if !s.infraReady then ReconcileOut.ret { requeue := false } none m
  else
    match s.bootstrapDataSecretName with
    | none => ReconcileOut.ret { requeue := false } none m
    | some _ =>
      match env.getVM with
      | GetVMOut.err e => ReconcileOut.ret { requeue := false } (some e) m
      | GetVMOut.ok vm => reconcileVMState env s vm
      | GetVMOut.notFound => reconcileVMState env s emptyObservedVM

def removeFinalizerMsg : String :=
  "unable to remove finalizer from HarvesterMachine"

/-- `ReconcileDelete` from the source: delete the cloud-init secret and
the VM (not-found is success for both), then release the finalizer;
`controllerutil.RemoveFinalizer` reports whether anything was removed. -/
def ReconcileDelete (env : PlatformEnv) (s : MachineScope) : ReconcileOut :=
  let m := s.hvMachine
  match env.deleteCloudInitSecret with
  | DeleteOut.err e => ReconcileOut.ret { requeue := true } (some e) m
  | _ =>
    match env.deleteVM with
    | DeleteOut.err e => ReconcileOut.ret { requeue := true } (some e) m
    | _ =>
      if m.finalizers.contains machineFinalizer then
        ReconcileOut.ret { requeue := false } none
          { m with finalizers := m.finalizers.filter (fun f => f ≠ machineFinalizer) }
      else ReconcileOut.ret { requeue := false } (some removeFinalizerMsg) m

/-! ## Helper lemmas -/

set_option maxRecDepth 8192 in
/-- The base cloud-init fragment is a YAML document; `json.Unmarshal`
rejects it at its first character. -/
theorem parseJsonObj_cloudInitBase :
    parseJsonObj cloudInitBase = Except.error "json: invalid character" := by rfl

/-- Any merge whose fragment list starts with the YAML base fragment
returns that parse error before looking at later fragments. -/
theorem mergeCloudInitData_base_first (rest : List String) :
    mergeCloudInitData (cloudInitBase :: rest) = MergeOut.err "json: invalid character" := by
  simp only [mergeCloudInitData, mergeLoop, parseJsonObj_cloudInitBase]

def isOkTemplate : TemplateOut → Bool
  | TemplateOut.ok _ => true
  | _ => false

/-- `buildVMTemplate` can never reach the template assembly: the
cloud-init merge always fails on the YAML base fragment first, so the
function returns an error (or crashes on a nil bootstrap reference)
without issuing any create call. -/
theorem buildVMTemplate_never_ok (env : PlatformEnv) (s : MachineScope)
    (pn : String) (ls : List (String × String)) :
    isOkTemplate (buildVMTemplate env s pn ls).1 = false ∧
      (buildVMTemplate env s pn ls).2 = noEffects := by
  unfold buildVMTemplate
  cases hk : env.getKeyPair with
  | error e => exact ⟨rfl, rfl⟩
  | ok sshKey =>
    simp only [emptyKeyPairGuard, if_false, Bool.false_eq_true, ↓reduceIte]
    cases hc : getCloudInitData s.bootstrapDataSecretName env.getDataSecret with
    | crash m => exact ⟨rfl, rfl⟩
    | err e1 => exact ⟨rfl, rfl⟩
    | ok userData =>
      simp only []
      rw [mergeCloudInitData_base_first]
      exact ⟨rfl, rfl⟩

def isErrMerge : MergeOut → Bool
  | MergeOut.err _ => true
  | _ => false

def isErrCreate : CreateOut → Bool
  | CreateOut.err _ => true
  | _ => false

def isCrashCreate : CreateOut → Bool
  | CreateOut.crash _ => true
  | _ => false

/-- `addFinalizer` never touches the status. -/
theorem addFinalizer_status (m : HarvesterMachine) : (addFinalizer m).status = m.status := by
  unfold addFinalizer
  split <;> rfl

/-- When the lookup returned not-found, the empty placeholder VM either
sends the pass to the create branch (machine returned unchanged) or, for
a machine with an empty name, crashes on the nil `Spec.Running`
dereference; a returning pass always hands back the scope's machine. -/
theorem reconcileVMState_empty_ret (env : PlatformEnv) (s : MachineScope)
    (res : CtrlResult) (e : Option String) (m' : HarvesterMachine)
    (h : reconcileVMState env s emptyObservedVM = ReconcileOut.ret res e m') :
    m' = s.hvMachine := by
  unfold reconcileVMState at h
  simp only [] at h
  by_cases hname : (emptyObservedVM.name == s.hvMachine.name) = true
  · rw [if_pos hname] at h
    have hrun : emptyObservedVM.running = none := rfl
    rw [hrun] at h
    exact absurd h (by simp)
  · rw [if_neg hname] at h
    split at h
    · exact absurd h (by simp)
    · rw [ReconcileOut.ret.injEq] at h
      exact h.2.2.symm

/-- A returning observe-or-create step either hands the machine back
unchanged or overwrites its addresses with a successful extraction
result, setting ready only when that result is non-empty. -/
theorem reconcileVMState_ret (env : PlatformEnv) (s : MachineScope) (vm : ObservedVM)
    (res : CtrlResult) (e : Option String) (m' : HarvesterMachine)
    (h : reconcileVMState env s vm = ReconcileOut.ret res e m') :
    (s.hvMachine.status.ready = true → m'.status.ready = true) ∧
      (m'.status.addresses = s.hvMachine.status.addresses ∨
        ∃ ips, getIPAddressesFromVMI env.listVMIs vm = Except.ok ips ∧
          m'.status.addresses = ips) := by
  unfold reconcileVMState at h
  simp only [] at h
  by_cases hname : (vm.name == s.hvMachine.name) = true
  · rw [if_pos hname] at h
    cases hrun : vm.running with
    | none =>
      rw [hrun] at h
      exact absurd h (by simp)
    | some running =>
      rw [hrun] at h
      simp only [] at h
      by_cases hr : running = true
      · rw [if_pos hr] at h
        cases hip : getIPAddressesFromVMI env.listVMIs vm with
        | error e2 =>
          rw [hip] at h
          rw [ReconcileOut.ret.injEq] at h
          obtain ⟨-, -, hm⟩ := h
          subst hm
          exact ⟨fun hrdy => hrdy, Or.inl rfl⟩
        | ok ips =>
          rw [hip] at h
          simp only [] at h
          rw [ReconcileOut.ret.injEq] at h
          obtain ⟨-, -, hm⟩ := h
          subst hm
          refine ⟨fun hrdy => ?_, Or.inr ⟨ips, rfl, rfl⟩⟩
          simp only []
          split <;> simp [hrdy]
      · rw [if_neg hr] at h
        rw [ReconcileOut.ret.injEq] at h
        obtain ⟨-, -, hm⟩ := h
        subst hm
        exact ⟨fun hrdy => hrdy, Or.inl rfl⟩
  · rw [if_neg hname] at h
    split at h
    · exact absurd h (by simp)
    · rw [ReconcileOut.ret.injEq] at h
      obtain ⟨-, -, hm⟩ := h
      subst hm
      exact ⟨fun hrdy => hrdy, Or.inl rfl⟩

/-! ## Claim theorems -/

/-- C1: the claim says merging the fragments holding packages ["a"] and
["b"] (in that order) yields a merged document whose packages key is the
flat list ["a","b"].  On the code, processing the very first fragment
already trips the unguarded type assertion on the nil accumulator entry
for "packages", so the merge panics and produces no document at all. -/
theorem C1_merge_two_packages_fragments_crashes :
    mergeCloudInitData
        ["\x7b\"packages\":[\"a\"]\x7d", "\x7b\"packages\":[\"b\"]\x7d"] =
      MergeOut.crash interfaceConversionMsg := by rfl

/-- C2: the claim says the merge is total and reports a shape violation
on a list-section key through its error return (a guarded type
assertion).  The assertion in the code is unguarded: already a single
fragment containing a list-section key panics on the nil accumulator
entry instead of returning any error value. -/
theorem C2_merge_list_section_crashes_not_errors :
    mergeCloudInitData ["\x7b\"packages\":[\"a\"]\x7d"] =
        MergeOut.crash interfaceConversionMsg ∧
      isErrMerge (mergeCloudInitData ["\x7b\"packages\":[\"a\"]\x7d"]) = false := by
  exact ⟨rfl, rfl⟩

/-- C4: the claim says a pass whose VM lookup returned not-found issues
exactly one VM create call carrying the synthesized definition.  In the
code no pass ever issues a VM create call: the cloud-init merge always
fails on the YAML base fragment, synthesis aborts, and the create is
never reached. -/
theorem C4_no_vm_create_call_ever (env : PlatformEnv) (s : MachineScope) :
    (createVMFromHarvesterMachine env s).2.vmCreateCalls = [] := by
  unfold createVMFromHarvesterMachine
  simp only []
  split
  · rfl
  · rfl
  · split
    · rfl
    · split
      · rfl
      · rename_i vmImage _ iv rest hiv _
        split
        · rename_i m eff heq
          have h2 := (buildVMTemplate_never_ok env s
            (s.hvMachine.name ++ "-disk-0-" ++ env.randomID)
            [("harvesterhci.io/creator", "harvester"),
             ("harvesterhci.io/vmName", s.hvMachine.name),
             ("harvesterhci.io/vmNamePrefix", s.hvMachine.name)]).2
          rw [heq] at h2
          have h3 : eff = noEffects := by simpa using h2
          rw [h3]
          rfl
        · rename_i e eff heq
          have h2 := (buildVMTemplate_never_ok env s
            (s.hvMachine.name ++ "-disk-0-" ++ env.randomID)
            [("harvesterhci.io/creator", "harvester"),
             ("harvesterhci.io/vmName", s.hvMachine.name),
             ("harvesterhci.io/vmNamePrefix", s.hvMachine.name)]).2
          rw [heq] at h2
          have h3 : eff = noEffects := by simpa using h2
          rw [h3]
          rfl
        · rename_i tmpl eff heq
          have h1 := (buildVMTemplate_never_ok env s
            (s.hvMachine.name ++ "-disk-0-" ++ env.randomID)
            [("harvesterhci.io/creator", "harvester"),
             ("harvesterhci.io/vmName", s.hvMachine.name),
             ("harvesterhci.io/vmNamePrefix", s.hvMachine.name)]).1
          rw [heq] at h1
          simp [isOkTemplate] at h1

/-- C8: the claim says a delete pass on which both deletes report
not-found succeeds and removes the finalizer marker when it was present,
and errors rather than silently succeeding when the marker was absent.
The code behaves exactly so. -/
theorem C8_delete_notfound_paths (env : PlatformEnv) (s : MachineScope)
    (h1 : env.deleteCloudInitSecret = DeleteOut.notFound)
    (h2 : env.deleteVM = DeleteOut.notFound) :
    (s.hvMachine.finalizers.contains machineFinalizer = true →
        ReconcileDelete env s = ReconcileOut.ret { requeue := false } none
          { s.hvMachine with
              finalizers := s.hvMachine.finalizers.filter (fun f => f ≠ machineFinalizer) }) ∧
      ((s.hvMachine.finalizers.filter (fun f => f ≠ machineFinalizer)).contains
          machineFinalizer = false) ∧
      (s.hvMachine.finalizers.contains machineFinalizer = false →
        ReconcileDelete env s =
          ReconcileOut.ret { requeue := false } (some removeFinalizerMsg) s.hvMachine) := by
  refine ⟨?_, ?_, ?_⟩
  · intro hf
    unfold ReconcileDelete
    simp only [h1, h2, hf, if_true]
  · rw [← Bool.not_eq_true]
    intro hcon
    have hmem := List.mem_of_elem_eq_true hcon
    have hne := (List.mem_filter.mp hmem).2
    simp at hne
  · intro hf
    unfold ReconcileDelete
    simp only [h1, h2, hf]
    simp

/-- C9: the claim says VM-template synthesis returns an error (and no
template) when the named SSH key-pair is absent, and also when the
fetched key-pair object is empty.  Both hold on the code — though the
dedicated empty-key-pair guard is dead (it compares the fetched pointer
with the address of a fresh allocation), an error still always results
because the cloud-init merge fails before the template is assembled. -/
theorem C9_sshkey_failures_abort_synthesis (env : PlatformEnv) (s : MachineScope)
    (pn : String) (ls : List (String × String)) :
    (∀ e, env.getKeyPair = Except.error e →
        (buildVMTemplate env s pn ls).1 =
          TemplateOut.err ("error during getting keypair from Harvester: " ++ e)) ∧
      (∀ d, s.bootstrapDataSecretName = some d →
        env.getKeyPair = Except.ok { name := "", publicKey := "" } →
        ∃ msg, (buildVMTemplate env s pn ls).1 = TemplateOut.err msg) := by
  constructor
  · intro e he
    unfold buildVMTemplate
    simp only [he]
  · intro d hd hk
    unfold buildVMTemplate
    simp only [hk, emptyKeyPairGuard, Bool.false_eq_true, ↓reduceIte]
    unfold getCloudInitData
    simp only [hd]
    cases hs : env.getDataSecret with
    | error e => exact ⟨_, rfl⟩
    | ok sec =>
      simp only []
      cases hv : sec.data.lookup "value" with
      | none => exact ⟨_, rfl⟩
      | some v =>
        simp only []
        rw [mergeCloudInitData_base_first]
        exact ⟨_, rfl⟩

/-! ### C3: create failures and the pass error -/

def machineC3 : HarvesterMachine :=
  { name := "m1", ns := "default", targetNamespace := "vms",
    finalizers := [machineFinalizer], deletionTimestampIsZero := true,
    volumes := [{ imageName := "ns1/ubuntu", volumeSize := some "10Gi" }],
    sshKeyPair := "kp1", cpu := 2, memory := "4Gi",
    status := { ready := false, addresses := [] } }

def envC3 : PlatformEnv :=
  { getVM := GetVMOut.notFound,
    listVMIs := fun _ => Except.ok [],
    listImages := fun _ =>
      Except.ok [{ name := "img-1", ns := "ns1", displayName := "ubuntu" }],
    getKeyPair := Except.ok { name := "kp1", publicKey := "ssh-rsa AAA" },
    getDataSecret := Except.ok
      { name := "m1-bootstrap", ns := "default", data := [("value", "\x7b\x7d")] },
    createCloudInitSecret := Except.ok (),
    createVM := Except.error "virtualmachines m1 already exists",
    deleteCloudInitSecret := DeleteOut.ok, deleteVM := DeleteOut.ok,
    randomID := "abc123" }

def scopeC3 : MachineScope :=
  { paused := false, infraReady := true,
    bootstrapDataSecretName := some "m1-bootstrap", hvMachine := machineC3 }

set_option maxRecDepth 16384 in
/-- C3 counterexample: a pass with all preconditions met and a
not-found lookup on which the create path fails (here the synthesis
failure that every pass hits) still returns a nil error — the failure is
logged and swallowed, contradicting the claim that create failures are
never returned as a nil error. -/
theorem C3_counterexample_create_failure_swallowed :
    isErrCreate (createVMFromHarvesterMachine envC3 scopeC3).1 = true ∧
      ReconcileNormal envC3 scopeC3 =
        ReconcileOut.ret { requeue := false } none machineC3 := by
  exact ⟨rfl, rfl⟩

/-- C3 amended: on a pass whose preconditions hold and whose lookup
returned not-found, any non-crashing outcome of the create path —
success or failure alike — yields a pass result with a nil error and the
machine unchanged; only lookup failures other than not-found surface as
the pass's error. -/
theorem C3_amended_create_failures_not_surfaced (env : PlatformEnv) (s : MachineScope)
    (d : String)
    (hp : s.paused = false)
    (hf : s.hvMachine.finalizers.contains machineFinalizer = true)
    (hi : s.infraReady = true)
    (hb : s.bootstrapDataSecretName = some d)
    (hv : env.getVM = GetVMOut.notFound)
    (hn : s.hvMachine.name ≠ "")
    (hc : isCrashCreate (createVMFromHarvesterMachine env s).1 = false) :
    ReconcileNormal env s = ReconcileOut.ret { requeue := false } none s.hvMachine := by
  unfold ReconcileNormal
  simp only [hp, hf, hi, hb, hv, Bool.not_true, Bool.false_and, Bool.false_eq_true,
    if_false, ↓reduceIte]
  unfold reconcileVMState
  simp only []
  have hne : (emptyObservedVM.name == s.hvMachine.name) = false := by
    have hemp : emptyObservedVM.name = "" := rfl
    rw [hemp]
    exact beq_eq_false_iff_ne.mpr (fun hcontra => hn hcontra.symm)
  rw [if_neg (by rw [hne]; simp)]
  cases hcc : createVMFromHarvesterMachine env s with
  | mk c eff =>
    cases c with
    | crash m =>
      rw [hcc] at hc
      simp [isCrashCreate] at hc
    | err e => rfl
    | ok vmdef => rfl

/-! ### C5: status monotonicity -/

def machineC5 : HarvesterMachine :=
  { name := "m5", ns := "default", targetNamespace := "vms",
    volumes := [], sshKeyPair := "kp1", cpu := 1, memory := "2Gi",
    finalizers := [machineFinalizer], deletionTimestampIsZero := true,
    status :=
      { ready := true,
        addresses := [{ addrType := MachineAddressType.externalIP, address := "10.0.0.5" }] } }

def envC5 : PlatformEnv :=
  { getVM := GetVMOut.ok { name := "m5", ns := "vms", running := some true },
    listVMIs := fun _ => Except.ok [{ interfaces := [] }],
    listImages := fun _ => Except.ok [],
    getKeyPair := Except.error "not found",
    getDataSecret := Except.error "not found",
    createCloudInitSecret := Except.ok (), createVM := Except.ok (),
    deleteCloudInitSecret := DeleteOut.ok, deleteVM := DeleteOut.ok,
    randomID := "r5" }

def scopeC5 : MachineScope :=
  { paused := false, infraReady := true,
    bootstrapDataSecretName := some "m5-bootstrap", hvMachine := machineC5 }

/-- C5 counterexample: a machine with a non-empty stored address list
reconciled against its running VM whose single instance reports no
interfaces: extraction succeeds with an empty list and the pass
overwrites — clears — the stored addresses, contradicting the claim
that addresses are never cleared and are left unchanged when extraction
finds none.  (The ready flag indeed stays true.) -/
theorem C5_counterexample_addresses_cleared :
    machineC5.status.addresses =
        [{ addrType := MachineAddressType.externalIP, address := "10.0.0.5" }] ∧
      ReconcileNormal envC5 scopeC5 = ReconcileOut.ret { requeue := false } none
        { machineC5 with status := { ready := true, addresses := [] } } := by
  exact ⟨rfl, rfl⟩

/-- C5 amended: on every returning pass the ready flag never regresses
from true to false, and the address list is either left unchanged or
overwritten with the successfully extracted list of the looked-up VM —
an overwrite that can clear it when the instances report no
interfaces. -/
theorem C5_amended_ready_monotone_addresses_replaced (env : PlatformEnv)
    (s : MachineScope) (res : CtrlResult) (e : Option String) (m' : HarvesterMachine)
    (h : ReconcileNormal env s = ReconcileOut.ret res e m') :
    (s.hvMachine.status.ready = true → m'.status.ready = true) ∧
      (m'.status.addresses = s.hvMachine.status.addresses ∨
        ∃ vm ips, env.getVM = GetVMOut.ok vm ∧
          getIPAddressesFromVMI env.listVMIs vm = Except.ok ips ∧
          m'.status.addresses = ips) := by
  unfold ReconcileNormal at h
  simp only [] at h
  split at h
  · rw [ReconcileOut.ret.injEq] at h
    obtain ⟨-, -, hm⟩ := h
    subst hm
    exact ⟨fun hrdy => hrdy, Or.inl rfl⟩
  · split at h
    · rw [ReconcileOut.ret.injEq] at h
      obtain ⟨-, -, hm⟩ := h
      subst hm
      rw [addFinalizer_status]
      exact ⟨fun hrdy => hrdy, Or.inl rfl⟩
    · split at h
      · rw [ReconcileOut.ret.injEq] at h
        obtain ⟨-, -, hm⟩ := h
        subst hm
        exact ⟨fun hrdy => hrdy, Or.inl rfl⟩
      · split at h
        · rw [ReconcileOut.ret.injEq] at h
          obtain ⟨-, -, hm⟩ := h
          subst hm
          exact ⟨fun hrdy => hrdy, Or.inl rfl⟩
        · rename_i d
          cases hgv : env.getVM with
          | err e2 =>
            rw [hgv] at h
            simp only [] at h
            rw [ReconcileOut.ret.injEq] at h
            obtain ⟨-, -, hm⟩ := h
            subst hm
            exact ⟨fun hrdy => hrdy, Or.inl rfl⟩
          | ok vm =>
            rw [hgv] at h
            simp only [] at h
            obtain ⟨h1, h2⟩ := reconcileVMState_ret env s vm res e m' h
            refine ⟨h1, ?_⟩
            cases h2 with
            | inl heq => exact Or.inl heq
            | inr hex =>
              obtain ⟨ips, hip, haddr⟩ := hex
              exact Or.inr ⟨vm, ips, rfl, hip, haddr⟩
          | notFound =>
            rw [hgv] at h
            simp only [] at h
            have hm := reconcileVMState_empty_ret env s res e m' h
            subst hm
            exact ⟨fun hrdy => hrdy, Or.inl rfl⟩

set_option maxRecDepth 16384 in
/-- Witness for the amended C3 theorem at the concrete pass above. -/
theorem C3_amended_create_failures_not_surfaced_witness :
    isCrashCreate (createVMFromHarvesterMachine envC3 scopeC3).1 = false ∧
      ReconcileNormal envC3 scopeC3 =
        ReconcileOut.ret { requeue := false } none machineC3 :=
  ⟨rfl, C3_amended_create_failures_not_surfaced envC3 scopeC3 "m1-bootstrap"
    rfl rfl rfl rfl rfl (by decide) rfl⟩

set_option maxRecDepth 16384 in
/-- Witness for the amended C5 theorem at the concrete pass above. -/
theorem C5_amended_ready_monotone_addresses_replaced_witness :
    machineC5.status.ready = true ∧
      ({ machineC5 with
          status := { ready := true, addresses := ([] : List MachineAddress) } }
        : HarvesterMachine).status.ready = true :=
  ⟨rfl, (C5_amended_ready_monotone_addresses_replaced envC5 scopeC5
    { requeue := false } none
    { machineC5 with status := { ready := true, addresses := [] } } rfl).1 rfl⟩

/-! ### C6: image resolution -/

/-- C6: image resolution on the first image-naming volume: a malformed
reference (not exactly two slash-separated segments) errors with the
malformed-reference message; with a successful listing, no display-name
match (including an empty listing) errors with the not-found message,
and a first match is returned and carries exactly the requested display
name (case-sensitively); a well-formed reference never yields the
malformed-reference error. -/
theorem C6_image_resolution (v : Volume) (rest : List Volume)
    (f : String → Except String (List VMImage)) :
    ((splitOnSep slashChar v.imageName).length ≠ 2 →
        getImageFromHarvesterMachine (v :: rest) f = ImageOut.err malformedImageRefMsg) ∧
      (∀ nsPart namePart imgs,
        splitOnSep slashChar v.imageName = [nsPart, namePart] →
        f nsPart = Except.ok imgs →
        ((∀ i ∈ imgs, i.displayName ≠ namePart) →
            getImageFromHarvesterMachine (v :: rest) f = ImageOut.err imageNotFoundMsg) ∧
          (∀ i, imgs.find? (fun img => img.displayName == namePart) = some i →
              getImageFromHarvesterMachine (v :: rest) f = ImageOut.ok i ∧
                i.displayName = namePart) ∧
          getImageFromHarvesterMachine (v :: rest) f ≠ ImageOut.err malformedImageRefMsg) := by
  constructor
  · intro hlen
    unfold getImageFromHarvesterMachine
    simp only []
    cases hsp : splitOnSep slashChar v.imageName with
    | nil => rfl
    | cons a t =>
      cases t with
      | nil => rfl
      | cons b t2 =>
        cases t2 with
        | nil =>
          rw [hsp] at hlen
          simp at hlen
        | cons c t3 => rfl
  · intro nsPart namePart imgs hsp hf
    have key : getImageFromHarvesterMachine (v :: rest) f =
        (if imgs.length = 0 then ImageOut.err imageNotFoundMsg
          else
            match imgs.find? (fun img => img.displayName == namePart) with
            | some img => ImageOut.ok img
            | none => ImageOut.err imageNotFoundMsg) := by
      unfold getImageFromHarvesterMachine
      simp only []
      rw [hsp]
      simp only []
      rw [hf]
    refine ⟨?_, ?_, ?_⟩
    · intro hnone
      rw [key]
      by_cases hl : imgs.length = 0
      · rw [if_pos hl]
      · rw [if_neg hl]
        have hfind : imgs.find? (fun img => img.displayName == namePart) = none := by
          rw [List.find?_eq_none]
          intro x hx hbe
          exact hnone x hx (by simpa using hbe)
        rw [hfind]
    · intro i hi
      have hmem := List.mem_of_find?_eq_some hi
      have hl : ¬ imgs.length = 0 := by
        cases imgs with
        | nil => simp at hmem
        | cons a t => simp
      have hdisp : i.displayName = namePart := by
        have hp := List.find?_some hi
        simpa using hp
      rw [key, if_neg hl, hi]
      exact ⟨rfl, hdisp⟩
    · rw [key]
      by_cases hl : imgs.length = 0
      · rw [if_pos hl]
        intro hcontra
        have hmsg : imageNotFoundMsg = malformedImageRefMsg := by injection hcontra
        exact absurd hmsg (by decide)
      · rw [if_neg hl]
        cases hfi : imgs.find? (fun img => img.displayName == namePart) with
        | some img =>
          intro hcontra
          exact ImageOut.noConfusion hcontra
        | none =>
          intro hcontra
          have hmsg : imageNotFoundMsg = malformedImageRefMsg := by injection hcontra
          exact absurd hmsg (by decide)

def volC6 : Volume := { imageName := "ns1/ubuntu", volumeSize := some "10Gi" }

def imgC6 : VMImage := { name := "img-1", ns := "ns1", displayName := "ubuntu" }

def listImagesC6 : String → Except String (List VMImage) := fun _ => Except.ok [imgC6]

/-- Witness for C6: resolving "ns1/ubuntu" against a namespace holding
one image displaying "ubuntu" returns that image. -/
theorem C6_image_resolution_witness :
    splitOnSep slashChar volC6.imageName = ["ns1", "ubuntu"] ∧
      getImageFromHarvesterMachine [volC6] listImagesC6 = ImageOut.ok imgC6 ∧
      imgC6.displayName = "ubuntu" := by
  refine ⟨rfl, ?_⟩
  have h := ((C6_image_resolution volC6 [] listImagesC6).2 "ns1" "ubuntu" [imgC6]
    rfl rfl).2.1 imgC6 rfl
  exact ⟨h.1, h.2⟩

/-! ### C7: address extraction and ready status -/

/-- C7: with a successful instance listing, extraction fails with the
no-instances error exactly when the listing is empty; otherwise it
returns one externally-tagged entry per interface per instance, in
platform order and without deduplication; and a pass observing the
running VM with a non-empty extraction result returns with ready set
and exactly those addresses stored. -/
theorem C7_address_extraction_and_ready (f : String → Except String (List VMInstance))
    (vm : ObservedVM) (items : List VMInstance) (h : f vm.ns = Except.ok items) :
    (getIPAddressesFromVMI f vm = Except.error (noInstancesMsg vm.name) ↔ items = []) ∧
      (items ≠ [] → getIPAddressesFromVMI f vm = Except.ok (items.flatMap
        (fun inst => inst.interfaces.map
          (fun nic => { addrType := MachineAddressType.externalIP, address := nic.ip })))) ∧
      (∀ env s ips, env.getVM = GetVMOut.ok vm → env.listVMIs = f →
        s.paused = false → s.hvMachine.finalizers.contains machineFinalizer = true →
        s.infraReady = true → (∃ d, s.bootstrapDataSecretName = some d) →
        vm.name = s.hvMachine.name → vm.running = some true →
        getIPAddressesFromVMI f vm = Except.ok ips → ips ≠ [] →
        ReconcileNormal env s = ReconcileOut.ret { requeue := false } none
          { s.hvMachine with status := { ready := true, addresses := ips } }) := by
  have key : getIPAddressesFromVMI f vm =
      (if items.length = 0 then Except.error (noInstancesMsg vm.name)
        else Except.ok (items.flatMap (fun inst => inst.interfaces.map
          (fun nic => { addrType := MachineAddressType.externalIP, address := nic.ip })))) := by
    unfold getIPAddressesFromVMI
    rw [h]
  refine ⟨?_, ?_, ?_⟩
  · constructor
    · intro he
      by_cases hl : items.length = 0
      · exact List.length_eq_zero.mp hl
      · rw [key, if_neg hl] at he
        exact absurd he (by simp)
    · intro hi
      subst hi
      rw [key]
      simp
  · intro hne
    rw [key, if_neg (fun hl => hne (List.length_eq_zero.mp hl))]
  · intro env s ips hgv hlv hp hfz hi hb hname hrun hip hne
    obtain ⟨d, hd⟩ := hb
    unfold ReconcileNormal
    simp only [hp, hfz, hi, hd, hgv, Bool.not_true, Bool.false_and, Bool.false_eq_true,
      if_false, ↓reduceIte]
    unfold reconcileVMState
    simp only []
    rw [if_pos (beq_iff_eq.mpr hname)]
    rw [hrun]
    simp only [if_true]
    rw [hlv, hip]
    simp only []
    have hlen : ips.length > 0 :=
      Nat.pos_of_ne_zero (fun h0 => hne (List.length_eq_zero.mp h0))
    rw [if_pos hlen]

def vmiC7 : VMInstance := { interfaces := [{ ip := "10.0.0.5" }] }

def vmC7 : ObservedVM := { name := "m7", ns := "vms", running := some true }

def listVMIsC7 : String → Except String (List VMInstance) := fun _ => Except.ok [vmiC7]

def machineC7 : HarvesterMachine :=
  { name := "m7", ns := "default", targetNamespace := "vms",
    finalizers := [machineFinalizer], deletionTimestampIsZero := true,
    volumes := [], sshKeyPair := "kp1", cpu := 1, memory := "2Gi",
    status := { ready := false, addresses := [] } }

def envC7 : PlatformEnv :=
  { getVM := GetVMOut.ok vmC7,
    listVMIs := listVMIsC7,
    listImages := fun _ => Except.ok [],
    getKeyPair := Except.error "not found",
    getDataSecret := Except.error "not found",
    createCloudInitSecret := Except.ok (), createVM := Except.ok (),
    deleteCloudInitSecret := DeleteOut.ok, deleteVM := DeleteOut.ok,
    randomID := "r7" }

def scopeC7 : MachineScope :=
  { paused := false, infraReady := true,
    bootstrapDataSecretName := some "m7-bootstrap", hvMachine := machineC7 }

/-- Witness for C7: one running instance reporting 10.0.0.5 yields
ready=true with exactly that externally-tagged address. -/
theorem C7_address_extraction_and_ready_witness :
    listVMIsC7 vmC7.ns = Except.ok [vmiC7] ∧
      ReconcileNormal envC7 scopeC7 = ReconcileOut.ret { requeue := false } none
        { machineC7 with
            status := { ready := true, addresses :=
              [{ addrType := MachineAddressType.externalIP, address := "10.0.0.5" }] } } := by
  refine ⟨rfl, ?_⟩
  exact (C7_address_extraction_and_ready listVMIsC7 vmC7 [vmiC7] rfl).2.2 envC7 scopeC7
    [{ addrType := MachineAddressType.externalIP, address := "10.0.0.5" }]
    rfl rfl rfl rfl rfl ⟨"m7-bootstrap", rfl⟩ rfl rfl rfl (by decide)

/-- C10: the claim says that when no volume names an image the creation
path accesses element 0 of the empty filtered list unguarded and
crashes rather than returning an error value.  The code does exactly
that: the embedded function yields the index-out-of-range crash outcome
and no error result on this branch. -/
theorem C10_no_image_volume_crashes (env : PlatformEnv) (s : MachineScope)
    (h : s.hvMachine.volumes.filter (fun v => v.imageName ≠ "") = []) :
    (createVMFromHarvesterMachine env s).1 =
        CreateOut.crash "runtime error: index out of range" ∧
      isErrCreate (createVMFromHarvesterMachine env s).1 = false := by
  unfold createVMFromHarvesterMachine
  simp only [h]
  exact ⟨rfl, rfl⟩

/-! ### Remaining concrete witnesses -/

def machineC8 : HarvesterMachine :=
  { name := "m8", ns := "default", targetNamespace := "vms",
    finalizers := [machineFinalizer], deletionTimestampIsZero := true,
    volumes := [], sshKeyPair := "kp1", cpu := 1, memory := "2Gi",
    status := { ready := false, addresses := [] } }

def envC8 : PlatformEnv :=
  { getVM := GetVMOut.notFound,
    listVMIs := fun _ => Except.ok [],
    listImages := fun _ => Except.ok [],
    getKeyPair := Except.error "not found",
    getDataSecret := Except.error "not found",
    createCloudInitSecret := Except.ok (), createVM := Except.ok (),
    deleteCloudInitSecret := DeleteOut.notFound, deleteVM := DeleteOut.notFound,
    randomID := "r8" }

def scopeC8 : MachineScope :=
  { paused := false, infraReady := true,
    bootstrapDataSecretName := some "m8-bootstrap", hvMachine := machineC8 }

/-- Witness for C8: both deletes report not-found and the finalizer was
present, so the pass succeeds and removes the marker. -/
theorem C8_delete_notfound_paths_witness :
    envC8.deleteCloudInitSecret = DeleteOut.notFound ∧
      machineC8.finalizers.contains machineFinalizer = true ∧
      ReconcileDelete envC8 scopeC8 = ReconcileOut.ret { requeue := false } none
        { machineC8 with
            finalizers := machineC8.finalizers.filter (fun f => f ≠ machineFinalizer) } :=
  ⟨rfl, rfl, (C8_delete_notfound_paths envC8 scopeC8 rfl rfl).1 rfl⟩

def machineC9 : HarvesterMachine :=
  { name := "m9", ns := "default", targetNamespace := "vms",
    finalizers := [machineFinalizer], deletionTimestampIsZero := true,
    volumes := [], sshKeyPair := "", cpu := 1, memory := "1Gi",
    status := { ready := false, addresses := [] } }

def envC9 : PlatformEnv :=
  { getVM := GetVMOut.notFound,
    listVMIs := fun _ => Except.ok [],
    listImages := fun _ => Except.ok [],
    getKeyPair := Except.ok { name := "", publicKey := "" },
    getDataSecret := Except.ok
      { name := "bs9", ns := "default", data := [("value", "\x7b\x7d")] },
    createCloudInitSecret := Except.ok (), createVM := Except.ok (),
    deleteCloudInitSecret := DeleteOut.ok, deleteVM := DeleteOut.ok,
    randomID := "r9" }

def scopeC9 : MachineScope :=
  { paused := false, infraReady := true,
    bootstrapDataSecretName := some "bs9", hvMachine := machineC9 }

/-- Witness for C9: a fetched empty key-pair object still ends synthesis
in an error. -/
theorem C9_sshkey_failures_abort_synthesis_witness :
    envC9.getKeyPair = Except.ok { name := "", publicKey := "" } ∧
      ∃ msg, (buildVMTemplate envC9 scopeC9 "pvc-1" []).1 = TemplateOut.err msg :=
  ⟨rfl, (C9_sshkey_failures_abort_synthesis envC9 scopeC9 "pvc-1" []).2 "bs9" rfl rfl⟩

def machineC10 : HarvesterMachine :=
  { name := "m10", ns := "default", targetNamespace := "vms",
    finalizers := [machineFinalizer], deletionTimestampIsZero := true,
    volumes := [{ imageName := "", volumeSize := some "10Gi" }],
    sshKeyPair := "kp1", cpu := 1, memory := "2Gi",
    status := { ready := false, addresses := [] } }

def envC10 : PlatformEnv :=
  { getVM := GetVMOut.notFound,
    listVMIs := fun _ => Except.ok [],
    listImages := fun _ => Except.ok [],
    getKeyPair := Except.ok { name := "kp1", publicKey := "ssh-rsa AAA" },
    getDataSecret := Except.error "not found",
    createCloudInitSecret := Except.ok (), createVM := Except.ok (),
    deleteCloudInitSecret := DeleteOut.ok, deleteVM := DeleteOut.ok,
    randomID := "r10" }

def scopeC10 : MachineScope :=
  { paused := false, infraReady := true,
    bootstrapDataSecretName := some "m10-bootstrap", hvMachine := machineC10 }

/-- Witness for C10: a machine whose only volume names no image crashes
the creation path with the out-of-range access. -/
theorem C10_no_image_volume_crashes_witness :
    machineC10.volumes.filter (fun v => v.imageName ≠ "") = [] ∧
      (createVMFromHarvesterMachine envC10 scopeC10).1 =
          CreateOut.crash "runtime error: index out of range" ∧
        isErrCreate (createVMFromHarvesterMachine envC10 scopeC10).1 = false :=
  ⟨rfl, C10_no_image_volume_crashes envC10 scopeC10 rfl⟩

end Harvester
